import Mathlib

/-!
Verification of the fetch/cache scripts of this repository.

The embedding models:
* `fetch_s3_file` from `file-fetch-caching.py` — an existence-check
  read-through cache over an HTTP GET, with the remote store as a
  function from URLs to responses.  Two filesystem models are used: a
  string-keyed one (one file per path string), adequate for the
  per-path properties, and a POSIX-resolution model (directories plus
  component-wise path resolution, so `cache/a//b` and `cache/a/../b`
  alias `cache/a/b` and `cache/b`) for the properties that concern
  aliasing between different keys' paths;
* `run_script_every_5_seconds` from `test-retry.py` — a `while True`
  subprocess loop, modelled with fuel;
* `upload_file_to_s3_if_not_exists` from `s3_example_upload.py` — a
  nested try/except around `head_object` / `upload_file`, with exception
  outcomes as explicit parameters.
-/

namespace DesiCache

/-- Bytes of a file, as natural numbers < 256 (the bound is irrelevant to
the properties proved here, so plain `Nat` is used). -/
abbrev Bytes := List Nat

/-- The local filesystem: an association list from path strings to file
contents.  Lookup takes the first binding, so consing a pair shadows any
older binding for the same path. -/
abbrev FileSystem := List (String × Bytes)

/-- `os.path.exists(p)` on the modelled filesystem. -/
def pathExists (fs : FileSystem) (p : String) : Bool :=
  (fs.lookup p).isSome

/-- Creating/overwriting the file at `p` with contents `c`
(`open(p, 'wb')` followed by writing `c`). -/
def writeFile (fs : FileSystem) (p : String) (c : Bytes) : FileSystem :=
  (p, c) :: fs

/-- Whether a path string is absolute (starts with `/`), as
`posixpath.join` tests it. -/
def isAbsPath (s : String) : Bool :=
  s.data.head? = some '/'

/-- Whether a path string ends with `/` (stated on the character list so
that it computes). -/
def endsWithSlash (s : String) : Bool :=
  s.data.getLast? = some '/'

/-- `os.path.join(a, b)` for two components, POSIX semantics: an absolute
second component discards the first; otherwise the components are joined
with a `/` separator (which is not duplicated when `a` already ends in
one, and not inserted when `a` is empty). -/
def osPathJoin (a b : String) : String :=
  if isAbsPath b then b
  else if a = "" then b
  else if endsWithSlash a then a ++ b
  else a ++ "/" ++ b

/-- `CACHE_DIR` from `file-fetch-caching.py`. -/
def CACHE_DIR : String := "cache"

/-- The local path computed for a key:
`os.path.join(CACHE_DIR, file_key)`. -/
def localPathFor (file_key : String) : String :=
  osPathJoin CACHE_DIR file_key

/-- The S3 URL built for a bucket and key:
`f"https://{bucket_name}.s3.amazonaws.com/{file_key}"`. -/
def s3UrlFor (bucket_name file_key : String) : String :=
  "https://" ++ bucket_name ++ ".s3.amazonaws.com/" ++ file_key

/-- Outcome of `requests.get(url, stream=True)` followed by consuming the
body: either the whole body arrives, or `raise_for_status` raises on a bad
HTTP status (before any byte is written), or the stream fails after
delivering only a proper initial part of the body. -/
inductive RemoteResult where
  | ok (content : Bytes)
  | httpError (status : Nat)
  | streamFail (delivered : Bytes)
  deriving DecidableEq, Repr

/-- The remote store: what each URL answers. -/
abbrev RemoteStore := String → RemoteResult

/-- Errors `fetch_s3_file` can raise: `requests.HTTPError` from
`raise_for_status`, a connection error while iterating the stream, or an
`OSError` from `open()` when the local path fails to resolve (used only
by the POSIX-resolution model below, and unreachable for the keys
exercised here).  The code defines no `InvalidKey` error and raises
none. -/
inductive FetchError where
  | httpStatus (status : Nat)
  | streamError
  | osError
  deriving DecidableEq, Repr

/-- A returned local path or a raised error. -/
inductive FetchResult where
  | ok (path : String)
  | error (e : FetchError)
  deriving DecidableEq, Repr

/-- Whether a call returned normally. -/
def FetchResult.isOk : FetchResult → Bool
  | .ok _ => true
  | .error _ => false

/-- Result of one `fetch_s3_file` call: the filesystem afterwards, the
returned path or raised error, and how many network requests were made. -/
structure FetchOutcome where
  fs : FileSystem
  result : FetchResult
  fetchCount : Nat
  deriving Repr

/-- `fetch_s3_file(bucket_name, file_key)` from `file-fetch-caching.py`:
if `os.path.exists(local_path)` the path is returned at once; otherwise
the URL is fetched, `raise_for_status` may raise, and the body is
streamed chunk by chunk into a file opened at `local_path` — so a stream
failure leaves the bytes delivered so far at `local_path`.  Directory
creation (`os.makedirs`) is abstracted away; only files are modelled. -/
def fetch_s3_file (remote : RemoteStore) (fs : FileSystem)
    (bucket_name file_key : String) : FetchOutcome :=
  let local_path := localPathFor file_key
  if pathExists fs local_path then
    { fs := fs, result := .ok local_path, fetchCount := 0 }
  else
    let s3_url := s3UrlFor bucket_name file_key
    match remote s3_url with
    | .httpError s =>
        { fs := fs, result := .error (.httpStatus s), fetchCount := 1 }
    | .ok content =>
        { fs := writeFile fs local_path content,
          result := .ok local_path, fetchCount := 1 }
    | .streamFail delivered =>
        { fs := writeFile fs local_path delivered,
          result := .error .streamError, fetchCount := 1 }

/-! ### Basic lemmas about paths and the branches of `fetch_s3_file` -/

theorem string_append_left_cancel {a b c : String} (h : a ++ b = a ++ c) :
    b = c := by
  have h2 := congrArg String.data h
  simp [String.data_append] at h2
  exact String.ext h2

theorem cachePrefix_head (k : String) :
    ("cache/" ++ k).data.head? = some 'c' := by
  simp [String.data_append]

theorem localPathFor_eq (k : String) :
    localPathFor k = if isAbsPath k then k else "cache/" ++ k := by
  by_cases h : isAbsPath k
  · simp [localPathFor, osPathJoin, h]
  · have hc : ("cache" : String) ++ "/" ++ k = "cache/" ++ k := by
      rw [String.append_assoc]
      rfl
    simp [localPathFor, osPathJoin, CACHE_DIR, h, endsWithSlash, hc]

theorem localPathFor_inj {k1 k2 : String}
    (h : localPathFor k1 = localPathFor k2) : k1 = k2 := by
  rw [localPathFor_eq, localPathFor_eq] at h
  by_cases h1 : isAbsPath k1 <;> by_cases h2 : isAbsPath k2 <;>
    simp [h1, h2] at h
  · exact h
  · exfalso
    have := cachePrefix_head k2
    rw [← h] at this
    simp [isAbsPath] at h1
    rw [h1] at this
    simp at this
  · exfalso
    have := cachePrefix_head k1
    rw [h] at this
    simp [isAbsPath] at h2
    rw [h2] at this
    simp at this
  · exact string_append_left_cancel h

theorem s3UrlFor_inj {b k1 k2 : String}
    (h : s3UrlFor b k1 = s3UrlFor b k2) : k1 = k2 := by
  exact string_append_left_cancel h

theorem fetch_hit (remote : RemoteStore) (fs : FileSystem)
    (b k : String) (h : pathExists fs (localPathFor k) = true) :
    fetch_s3_file remote fs b k =
      { fs := fs, result := .ok (localPathFor k), fetchCount := 0 } := by
  simp [fetch_s3_file, h]

theorem fetch_miss_ok (remote : RemoteStore) (fs : FileSystem)
    (b k : String) (c : Bytes)
    (h0 : pathExists fs (localPathFor k) = false)
    (hr : remote (s3UrlFor b k) = .ok c) :
    fetch_s3_file remote fs b k =
      { fs := writeFile fs (localPathFor k) c,
        result := .ok (localPathFor k), fetchCount := 1 } := by
  simp [fetch_s3_file, h0, hr]

theorem fetch_miss_http (remote : RemoteStore) (fs : FileSystem)
    (b k : String) (s : Nat)
    (h0 : pathExists fs (localPathFor k) = false)
    (hr : remote (s3UrlFor b k) = .httpError s) :
    fetch_s3_file remote fs b k =
      { fs := fs, result := .error (.httpStatus s), fetchCount := 1 } := by
  simp [fetch_s3_file, h0, hr]

theorem fetch_miss_stream (remote : RemoteStore) (fs : FileSystem)
    (b k : String) (d : Bytes)
    (h0 : pathExists fs (localPathFor k) = false)
    (hr : remote (s3UrlFor b k) = .streamFail d) :
    fetch_s3_file remote fs b k =
      { fs := writeFile fs (localPathFor k) d,
        result := .error .streamError, fetchCount := 1 } := by
  simp [fetch_s3_file, h0, hr]

theorem lookup_writeFile_self (fs : FileSystem) (p : String) (c : Bytes) :
    (writeFile fs p c).lookup p = some c := by
  simp [writeFile, List.lookup]

theorem lookup_writeFile_other (fs : FileSystem) (p q : String) (c : Bytes)
    (h : q ≠ p) : (writeFile fs p c).lookup q = fs.lookup q := by
  have hb : (q == p) = false := by simp [h]
  simp [writeFile, List.lookup, hb]

theorem pathExists_writeFile_self (fs : FileSystem) (p : String) (c : Bytes) :
    pathExists (writeFile fs p c) p = true := by
  simp [pathExists, lookup_writeFile_self]

/-! ### Claims about `fetch_s3_file` -/

/-- C1 (counterexample): a cache entry of 1 byte sits at the computed
local path while the remote object has 4 bytes — the entry fails any
size check against the remote — yet `fetch_s3_file` returns the cached
path with no network request.  The return does not require any integrity
check. -/
theorem C1_counterexample :
    (fetch_s3_file (fun _ => .ok [1, 2, 3, 4])
        [("cache/spectra/obj1.fits", [0])] "bkt" "spectra/obj1.fits").result
      = .ok "cache/spectra/obj1.fits" ∧
    (fetch_s3_file (fun _ => .ok [1, 2, 3, 4])
        [("cache/spectra/obj1.fits", [0])] "bkt" "spectra/obj1.fits").fetchCount
      = 0 ∧
    (fetch_s3_file (fun _ => .ok [1, 2, 3, 4])
        [("cache/spectra/obj1.fits", [0])] "bkt" "spectra/obj1.fits").fs.lookup
        "cache/spectra/obj1.fits" = some [0] ∧
    ([0] : Bytes).length ≠ ([1, 2, 3, 4] : Bytes).length := by
  decide

/-- C1 (amended): for every key whose cache entry already exists at the
computed local path, `fetch_s3_file` returns that path immediately with
no network request and leaves the filesystem unchanged, regardless of
the entry's contents — no integrity check of any kind is performed. -/
theorem C1_fast_path (remote : RemoteStore) (fs : FileSystem) (b k : String)
    (h : pathExists fs (localPathFor k) = true) :
    (fetch_s3_file remote fs b k).result = .ok (localPathFor k) ∧
    (fetch_s3_file remote fs b k).fetchCount = 0 ∧
    (fetch_s3_file remote fs b k).fs = fs := by
  rw [fetch_hit remote fs b k h]
  exact ⟨rfl, rfl, rfl⟩

/-- Witness for C1: a concrete cached key. -/
theorem C1_fast_path_witness :
    (fetch_s3_file (fun _ => .ok [1]) [("cache/k1", [9])] "bkt" "k1").result
      = .ok (localPathFor "k1") ∧
    (fetch_s3_file (fun _ => .ok [1]) [("cache/k1", [9])] "bkt" "k1").fetchCount
      = 0 ∧
    (fetch_s3_file (fun _ => .ok [1]) [("cache/k1", [9])] "bkt" "k1").fs
      = [("cache/k1", [9])] :=
  C1_fast_path (fun _ => .ok [1]) [("cache/k1", [9])] "bkt" "k1" (by decide)

/-- C2: if the first call returns normally, both calls return the same
local path, the second call performs no network request, and — when the
key was not cached before the first call, the only case in which a fetch
can occur — the two calls perform exactly one network fetch in total. -/
theorem C2_idempotent (remote : RemoteStore) (fs : FileSystem) (b k : String)
    (h1 : (fetch_s3_file remote fs b k).result.isOk = true) :
    (fetch_s3_file remote fs b k).result = .ok (localPathFor k) ∧
    (fetch_s3_file remote (fetch_s3_file remote fs b k).fs b k).result
      = .ok (localPathFor k) ∧
    (fetch_s3_file remote (fetch_s3_file remote fs b k).fs b k).fetchCount = 0 ∧
    (pathExists fs (localPathFor k) = false →
      (fetch_s3_file remote fs b k).fetchCount +
        (fetch_s3_file remote (fetch_s3_file remote fs b k).fs b k).fetchCount
        = 1) := by
  by_cases hp : pathExists fs (localPathFor k) = true
  · rw [fetch_hit remote fs b k hp]
    rw [fetch_hit remote fs b k hp]
    exact ⟨rfl, rfl, rfl, fun hc => by rw [hp] at hc; cases hc⟩
  · have hp0 : pathExists fs (localPathFor k) = false := by
      revert hp
      cases pathExists fs (localPathFor k) <;> simp
    rcases hr : remote (s3UrlFor b k) with c | s | d
    · rw [fetch_miss_ok remote fs b k c hp0 hr]
      rw [fetch_hit remote _ b k
        (pathExists_writeFile_self fs (localPathFor k) c)]
      exact ⟨rfl, rfl, rfl, fun _ => rfl⟩
    · rw [fetch_miss_http remote fs b k s hp0 hr] at h1
      cases h1
    · rw [fetch_miss_stream remote fs b k d hp0 hr] at h1
      cases h1

/-- Witness for C2: a fresh cache, a remote object of two bytes; exactly
one network fetch over two calls. -/
theorem C2_idempotent_witness :
    (fetch_s3_file (fun _ => .ok [1, 2]) [] "bkt" "k2").fetchCount +
      (fetch_s3_file (fun _ => .ok [1, 2])
        (fetch_s3_file (fun _ => .ok [1, 2]) [] "bkt" "k2").fs
        "bkt" "k2").fetchCount = 1 :=
  (C2_idempotent (fun _ => .ok [1, 2]) [] "bkt" "k2" (by decide)).2.2.2
    (by decide)

/-- C3 (counterexample): the remote stream fails after delivering 2 of
the object's bytes; after the failing call a file holding exactly those
2 bytes sits at the final path — the bytes are written straight to the
final path, not to a temporary location. -/
theorem C3_counterexample :
    (fetch_s3_file (fun _ => .streamFail [1, 2]) [] "bkt"
        "spectra/obj3.fits").result = .error .streamError ∧
    (fetch_s3_file (fun _ => .streamFail [1, 2]) [] "bkt"
        "spectra/obj3.fits").fs.lookup "cache/spectra/obj3.fits"
      = some [1, 2] := by
  decide

/-- C3 (amended): on an uncached key whose remote stream fails partway,
the call raises, the bytes delivered so far remain at the final path,
and every subsequent call for the same key returns that partial file
from cache with no network request, leaving it in place. -/
theorem C3_partial_artifact (remote : RemoteStore) (fs : FileSystem)
    (b k : String) (d : Bytes)
    (h0 : pathExists fs (localPathFor k) = false)
    (hr : remote (s3UrlFor b k) = .streamFail d) :
    (fetch_s3_file remote fs b k).result = .error .streamError ∧
    (fetch_s3_file remote fs b k).fs.lookup (localPathFor k) = some d ∧
    ∀ remote2 : RemoteStore,
      (fetch_s3_file remote2 (fetch_s3_file remote fs b k).fs b k).result
        = .ok (localPathFor k) ∧
      (fetch_s3_file remote2 (fetch_s3_file remote fs b k).fs b k).fetchCount
        = 0 ∧
      (fetch_s3_file remote2 (fetch_s3_file remote fs b k).fs b k).fs.lookup
        (localPathFor k) = some d := by
  rw [fetch_miss_stream remote fs b k d h0 hr]
  refine ⟨rfl, lookup_writeFile_self fs (localPathFor k) d, fun remote2 => ?_⟩
  rw [fetch_hit remote2 _ b k (pathExists_writeFile_self fs (localPathFor k) d)]
  exact ⟨rfl, rfl, lookup_writeFile_self fs (localPathFor k) d⟩

/-- Witness for C3 (amended): a concrete stream failure. -/
theorem C3_partial_artifact_witness :
    (fetch_s3_file (fun _ => .streamFail [7]) [] "bkt" "k3").fs.lookup
      (localPathFor "k3") = some [7] :=
  (C3_partial_artifact (fun _ => .streamFail [7]) [] "bkt" "k3" [7]
    (by decide) rfl).2.1

/-- C4 (counterexample): `fetch_s3_file` on the key `"../etc/passwd"`
raises no error at all: it performs a network request and returns the
traversal path `"cache/../etc/passwd"`.  No `InvalidKey` error exists in
the code. -/
theorem C4_counterexample :
    (fetch_s3_file (fun _ => .ok [7]) [] "bkt" "../etc/passwd").result
      = .ok "cache/../etc/passwd" ∧
    (fetch_s3_file (fun _ => .ok [7]) [] "bkt" "../etc/passwd").fetchCount
      = 1 := by
  decide

/-- C4 (amended): `fetch_s3_file` performs no key validation: every key —
empty, containing `..` segments, or absolute — is processed by the same
existence-check-then-fetch logic, and an absolute key is even used as
the local path verbatim (`os.path.join` discards the cache prefix), so
the written file escapes the cache root. -/
theorem C4_no_validation (remote : RemoteStore) (fs : FileSystem)
    (b k : String) (c : Bytes)
    (h0 : pathExists fs (localPathFor k) = false)
    (hr : remote (s3UrlFor b k) = .ok c) :
    (fetch_s3_file remote fs b k).result = .ok (localPathFor k) ∧
    (fetch_s3_file remote fs b k).fetchCount = 1 ∧
    (isAbsPath k = true → localPathFor k = k) := by
  rw [fetch_miss_ok remote fs b k c h0 hr]
  refine ⟨rfl, rfl, fun ha => ?_⟩
  simp [localPathFor_eq, ha]

/-- Witness for C4 (amended): a traversal key is fetched and returned. -/
theorem C4_no_validation_witness :
    (fetch_s3_file (fun _ => .ok [7, 8]) [] "bkt" "../etc/shadow").result
      = .ok (localPathFor "../etc/shadow") :=
  (C4_no_validation (fun _ => .ok [7, 8]) [] "bkt" "../etc/shadow" [7, 8]
    (by decide) rfl).1

/-- C6 (counterexample): the cache holds a 1-byte file for a key whose
remote object has 4 bytes; `fetch_s3_file` returns success with that
path although the file is not a copy of the remote object — no byte
count (or any other) verification happens on either branch. -/
theorem C6_counterexample :
    (fetch_s3_file (fun _ => .ok [5, 6, 7, 8])
        [("cache/spectra/obj6.fits", [5])] "bkt" "spectra/obj6.fits").result
      = .ok "cache/spectra/obj6.fits" ∧
    (fetch_s3_file (fun _ => .ok [5, 6, 7, 8])
        [("cache/spectra/obj6.fits", [5])] "bkt" "spectra/obj6.fits").fs.lookup
        "cache/spectra/obj6.fits" = some [5] ∧
    ([5] : Bytes) ≠ [5, 6, 7, 8] := by
  decide

/-- C6 (amended): on a successful cache-miss fetch the file written at
the returned path holds exactly the bytes the remote stream delivered —
with no verification of the byte count against any size reported by the
remote store — and on the cache-hit branch the existing file is returned
as it is, without any comparison to the remote object. -/
theorem C6_no_verification (remote : RemoteStore) (fs : FileSystem)
    (b k : String) (c : Bytes)
    (h0 : pathExists fs (localPathFor k) = false)
    (hr : remote (s3UrlFor b k) = .ok c) :
    (fetch_s3_file remote fs b k).result = .ok (localPathFor k) ∧
    (fetch_s3_file remote fs b k).fs.lookup (localPathFor k) = some c ∧
    ∀ fs2 : FileSystem, pathExists fs2 (localPathFor k) = true →
      (fetch_s3_file remote fs2 b k).result = .ok (localPathFor k) ∧
      (fetch_s3_file remote fs2 b k).fs.lookup (localPathFor k)
        = fs2.lookup (localPathFor k) := by
  rw [fetch_miss_ok remote fs b k c h0 hr]
  refine ⟨rfl, lookup_writeFile_self fs (localPathFor k) c, fun fs2 h2 => ?_⟩
  rw [fetch_hit remote fs2 b k h2]
  exact ⟨rfl, rfl⟩

/-- Witness for C6 (amended): a concrete miss writes the delivered
bytes. -/
theorem C6_no_verification_witness :
    (fetch_s3_file (fun _ => .ok [4, 2]) [] "bkt" "k6").fs.lookup
      (localPathFor "k6") = some [4, 2] :=
  (C6_no_verification (fun _ => .ok [4, 2]) [] "bkt" "k6" [4, 2]
    (by decide) rfl).2.1

/-! ### Interleaved concurrent callers of `fetch_s3_file`

The code takes no lock of any kind, so concurrent callers are modelled
by an explicit interleaving: each caller executes its `os.path.exists`
check as one atomic step and its GET-plus-write as a second atomic step
(the real code interleaves even more finely, at stream-chunk
granularity; this coarser grain is enough to exhibit the behavior at
issue), and a schedule chooses which caller moves next. -/

/-- Program counter of one concurrent caller of `fetch_s3_file` for a
common key. -/
inductive CallerState where
  | ready
  | fetching
  | finished (r : FetchResult)
  deriving DecidableEq, Repr

/-- Shared filesystem and network-transfer counter, plus each caller's
state. -/
structure ConcState where
  fs : FileSystem
  fetchCount : Nat
  callers : List CallerState
  deriving Repr

/-- Advance caller `i` by one atomic step of `fetch_s3_file`: a `ready`
caller runs the existence check and either finishes with the path (hit)
or moves to `fetching` (miss); a `fetching` caller performs the GET and
the write without rechecking existence, exactly as the code does. -/
def concStep (remote : RemoteStore) (b k : String) (st : ConcState)
    (i : Nat) : ConcState :=
  match st.callers.get? i with
  | none => st
  | some .ready =>
      if pathExists st.fs (localPathFor k) then
        { st with callers :=
            st.callers.set i (.finished (.ok (localPathFor k))) }
      else
        { st with callers := st.callers.set i .fetching }
  | some .fetching =>
      match remote (s3UrlFor b k) with
      | .ok c =>
          { fs := writeFile st.fs (localPathFor k) c,
            fetchCount := st.fetchCount + 1,
            callers := st.callers.set i (.finished (.ok (localPathFor k))) }
      | .httpError s =>
          { st with
            fetchCount := st.fetchCount + 1
            callers :=
              st.callers.set i (.finished (.error (.httpStatus s))) }
      | .streamFail d =>
          { fs := writeFile st.fs (localPathFor k) d,
            fetchCount := st.fetchCount + 1,
            callers := st.callers.set i (.finished (.error .streamError)) }
  | some (.finished _) => st

/-- Run a schedule, a list of caller indices, from a state. -/
def runSchedule (remote : RemoteStore) (b k : String) (st : ConcState) :
    List Nat → ConcState
  | [] => st
  | i :: rest => runSchedule remote b k (concStep remote b k st i) rest

/-- C5 (counterexample): two callers resolve the same uncached key under
the schedule that lets both run the existence check before either
fetches; both then fetch — two network transfers, not one. -/
theorem C5_counterexample :
    (runSchedule (fun _ => .ok [3, 4]) "bkt" "spectra/obj5.fits"
      { fs := [], fetchCount := 0, callers := [.ready, .ready] }
      [0, 1, 0, 1]).fetchCount = 2 ∧
    (runSchedule (fun _ => .ok [3, 4]) "bkt" "spectra/obj5.fits"
      { fs := [], fetchCount := 0, callers := [.ready, .ready] }
      [0, 1, 0, 1]).callers
      = [.finished (.ok "cache/spectra/obj5.fits"),
         .finished (.ok "cache/spectra/obj5.fits")] := by
  decide

/-- C5 (amended): `fetch_s3_file` performs no per-key serialization:
whenever two concurrent callers of an uncached key both pass the
existence check before either downloads, each performs its own network
transfer — two transfers for two callers — although both still finish
with the final path. -/
theorem C5_duplicate_fetch (remote : RemoteStore) (fs : FileSystem)
    (b k : String) (c : Bytes)
    (h0 : pathExists fs (localPathFor k) = false)
    (hr : remote (s3UrlFor b k) = .ok c) :
    (runSchedule remote b k
      { fs := fs, fetchCount := 0, callers := [.ready, .ready] }
      [0, 1, 0, 1]).fetchCount = 2 ∧
    (runSchedule remote b k
      { fs := fs, fetchCount := 0, callers := [.ready, .ready] }
      [0, 1, 0, 1]).callers
      = [.finished (.ok (localPathFor k)),
         .finished (.ok (localPathFor k))] := by
  simp [runSchedule, concStep, h0, hr, List.set]

/-- Witness for C5 (amended): a concrete two-caller run. -/
theorem C5_duplicate_fetch_witness :
    (runSchedule (fun _ => .ok [9]) "bkt" "k5"
      { fs := [], fetchCount := 0, callers := [.ready, .ready] }
      [0, 1, 0, 1]).fetchCount = 2 :=
  (C5_duplicate_fetch (fun _ => .ok [9]) [] "bkt" "k5" [9]
    (by decide) rfl).1

/-! ### The retry loop of `test-retry.py` -/

/-- One observable event of `run_script_every_5_seconds`. -/
inductive LoopEvent where
  | printedRunning
  | scriptRan (ok : Bool)
  | printedErrorMsg
  | slept (seconds : Nat)
  deriving DecidableEq, Repr

/-- `run_script_every_5_seconds(script_path)` from `test-retry.py`:
`while True:` print "Running script...", run the script via
`subprocess.run(..., check=True)` — a `CalledProcessError` is caught and
printed — then `time.sleep(5)`, and loop again.  `outcomes i` tells
whether the i-th run of the script succeeds; the fuel argument bounds
how many loop iterations are observed.  The first component of the
result is `some ()` when the function has returned within the observed
iterations: the loop body contains no `break` or `return`, so the
recursive translation can only ever reach the out-of-fuel base case. -/
def run_script_every_5_seconds (outcomes : Nat → Bool) :
    Nat → Nat → Option Unit × List LoopEvent
  | _, 0 => (none, [])
  | i, fuel + 1 =>
      let body :=
        [LoopEvent.printedRunning] ++
        (if outcomes i then [LoopEvent.scriptRan true]
         else [LoopEvent.scriptRan false, LoopEvent.printedErrorMsg]) ++
        [LoopEvent.slept 5]
      let rest := run_script_every_5_seconds outcomes (i + 1) fuel
      (rest.1, body ++ rest.2)

/-- Number of times the script was run in a trace. -/
def attemptCount (evs : List LoopEvent) : Nat :=
  (evs.filter fun e =>
    match e with
    | .scriptRan _ => true
    | _ => false).length

theorem runLoop_unfold (outcomes : Nat → Bool) (i n : Nat) :
    run_script_every_5_seconds outcomes i (n + 1) =
      ((run_script_every_5_seconds outcomes (i + 1) n).1,
       ([LoopEvent.printedRunning] ++
        (if outcomes i then [LoopEvent.scriptRan true]
         else [LoopEvent.scriptRan false, LoopEvent.printedErrorMsg]) ++
        [LoopEvent.slept 5]) ++
       (run_script_every_5_seconds outcomes (i + 1) n).2) := rfl

theorem attemptCount_append (l1 l2 : List LoopEvent) :
    attemptCount (l1 ++ l2) = attemptCount l1 + attemptCount l2 := by
  simp [attemptCount, List.filter_append]

theorem runLoop_never_returns (outcomes : Nat → Bool) (i fuel : Nat) :
    (run_script_every_5_seconds outcomes i fuel).1 = none := by
  induction fuel generalizing i with
  | zero => rfl
  | succ n ih =>
      rw [runLoop_unfold]
      exact ih (i + 1)

theorem runLoop_attemptCount (outcomes : Nat → Bool) (i fuel : Nat) :
    attemptCount (run_script_every_5_seconds outcomes i fuel).2 = fuel := by
  induction fuel generalizing i with
  | zero => rfl
  | succ n ih =>
      rw [runLoop_unfold]
      show attemptCount
        (_ ++ (run_script_every_5_seconds outcomes (i + 1) n).2) = n + 1
      rw [attemptCount_append, ih]
      by_cases h : outcomes i = true
      · have hb : outcomes i = true := h
        rw [hb]
        show 1 + n = n + 1
        omega
      · have hb : outcomes i = false := by
          revert h
          cases outcomes i <;> simp
        rw [hb]
        show 1 + n = n + 1
        omega

theorem runLoop_sleeps_are_5 (outcomes : Nat → Bool) (i fuel s : Nat)
    (h : LoopEvent.slept s ∈ (run_script_every_5_seconds outcomes i fuel).2) :
    s = 5 := by
  induction fuel generalizing i with
  | zero => cases h
  | succ n ih =>
      rw [runLoop_unfold] at h
      by_cases ho : outcomes i = true <;> simp [ho] at h <;>
        rcases h with h | h <;>
        first
          | exact h
          | exact ih (i + 1) h

/-- C7 (counterexample / negation of the claim): with the invoked script
failing on every run, the loop never surfaces the failure — it has not
returned after any number of iterations — the number of attempts equals
the number of iterations observed (so it exceeds every claimed bound),
and every delay between attempts is the fixed 5 seconds, with no
backoff.  The retry loop does run forever with a fixed delay. -/
theorem C7_counterexample :
    (∀ fuel, (run_script_every_5_seconds (fun _ => false) 0 fuel).1
      = none) ∧
    (∀ fuel, attemptCount
      (run_script_every_5_seconds (fun _ => false) 0 fuel).2 = fuel) ∧
    (∀ fuel s, LoopEvent.slept s ∈
      (run_script_every_5_seconds (fun _ => false) 0 fuel).2 → s = 5) :=
  ⟨fun fuel => runLoop_never_returns (fun _ => false) 0 fuel,
   fun fuel => runLoop_attemptCount (fun _ => false) 0 fuel,
   fun fuel s h => runLoop_sleeps_are_5 (fun _ => false) 0 fuel s h⟩

/-- C7 (amended): whatever the outcomes of the individual runs, the loop
of `run_script_every_5_seconds` catches and prints each failure and
retries unconditionally forever with a fixed 5-second delay between
attempts: it never returns, performs as many attempts as iterations
observed, and applies no backoff; no failure is ever surfaced to the
caller. -/
theorem C7_retries_forever (outcomes : Nat → Bool) (fuel : Nat) :
    (run_script_every_5_seconds outcomes 0 fuel).1 = none ∧
    attemptCount (run_script_every_5_seconds outcomes 0 fuel).2 = fuel ∧
    ∀ s, LoopEvent.slept s ∈
      (run_script_every_5_seconds outcomes 0 fuel).2 → s = 5 :=
  ⟨runLoop_never_returns outcomes 0 fuel,
   runLoop_attemptCount outcomes 0 fuel,
   fun s h => runLoop_sleeps_are_5 outcomes 0 fuel s h⟩

/-- Witness for C7 (amended): three failing iterations, no return, three
attempts. -/
theorem C7_retries_forever_witness :
    (run_script_every_5_seconds (fun _ => false) 0 3).1 = none ∧
    attemptCount (run_script_every_5_seconds (fun _ => false) 0 3).2 = 3 :=
  ⟨(C7_retries_forever (fun _ => false) 3).1,
   (C7_retries_forever (fun _ => false) 3).2.1⟩

/-! ### `upload_file_to_s3_if_not_exists` from `s3_example_upload.py` -/

/-- Outcome of one boto3 call: normal return, or a raised exception with
its message.  Failures are modelled as `Exception` subclasses — the only
kind a boto3 client call raises on failure; `BaseException`s that are
not `Exception`s (`KeyboardInterrupt`, `SystemExit`) are outside the
model. -/
inductive PyOutcome where
  | ok
  | exc (msg : String)
  deriving DecidableEq, Repr

/-- Observable events of `upload_file_to_s3_if_not_exists`. -/
inductive UploadEvent where
  | headObjectCalled
  | uploadCalled
  | printed (msg : String)
  deriving DecidableEq, Repr

/-- `upload_file_to_s3_if_not_exists(file_path, bucket_name, s3_path)`:
a `try` whose body calls `head_object` inside an inner `try`; the inner
bare `except:` catches any `head_object` error and calls `upload_file`;
the outer `except Exception as e:` catches any remaining error and
prints it.  `head` and `upl` are the outcomes of the two boto3 calls
(`upl` only matters when the upload is reached).  Returns the event
trace and the exception propagated to the caller, if any. -/
def upload_file_to_s3_if_not_exists (head upl : PyOutcome)
    (file_path bucket_name s3_path : String) :
    List UploadEvent × Option String :=
  match head with
  | .ok =>
      ([.headObjectCalled,
        .printed ("File already exists at " ++ s3_path ++ " in bucket "
          ++ bucket_name ++ ".")], none)
  | .exc _ =>
      match upl with
      | .ok =>
          ([.headObjectCalled, .uploadCalled,
            .printed ("File uploaded to " ++ s3_path ++ " in bucket "
              ++ bucket_name ++ ".")], none)
      | .exc m2 =>
          ([.headObjectCalled, .uploadCalled, .printed m2], none)

/-- C10 (counterexample): the existence check fails with
"AccessDenied" and the subsequent upload succeeds; the call returns
normally but the head_object failure, although caught, is never printed
— no printed event carries its message — so "every failure is caught
and printed" fails for the existence check. -/
theorem C10_counterexample :
    (upload_file_to_s3_if_not_exists (.exc "AccessDenied") .ok
      "/tmp/f" "bkt" "p/f").2 = none ∧
    (upload_file_to_s3_if_not_exists (.exc "AccessDenied") .ok
      "/tmp/f" "bkt" "p/f").1
      = [.headObjectCalled, .uploadCalled,
         .printed "File uploaded to p/f in bucket bkt."] ∧
    UploadEvent.printed "AccessDenied" ∉
      (upload_file_to_s3_if_not_exists (.exc "AccessDenied") .ok
        "/tmp/f" "bkt" "p/f").1 := by
  decide

/-- C10 (amended): `upload_file_to_s3_if_not_exists` never propagates an
exception — it always returns normally — any error from the
`head_object` existence check (not only a missing object) is caught,
silently, and causes an upload attempt, and an error from the upload
itself is caught and its message printed; the caller can never observe
whether the operation failed. -/
theorem C10_swallows_errors (head upl : PyOutcome) (fp b sp : String) :
    (upload_file_to_s3_if_not_exists head upl fp b sp).2 = none ∧
    (∀ m, head = .exc m →
      UploadEvent.uploadCalled ∈
        (upload_file_to_s3_if_not_exists head upl fp b sp).1) ∧
    (∀ m m2, head = .exc m → upl = .exc m2 →
      UploadEvent.printed m2 ∈
        (upload_file_to_s3_if_not_exists head upl fp b sp).1) := by
  rcases head with _ | m0
  · refine ⟨rfl, fun m hm => ?_, fun m m2 hm _ => ?_⟩
    · cases hm
    · cases hm
  · rcases upl with _ | m2'
    · refine ⟨rfl, fun m _ => ?_, fun m m2 _ hu => ?_⟩
      · simp [upload_file_to_s3_if_not_exists]
      · cases hu
    · refine ⟨rfl, fun m _ => ?_, fun m m2 _ hu => ?_⟩
      · simp [upload_file_to_s3_if_not_exists]
      · rcases hu with ⟨⟩
        simp [upload_file_to_s3_if_not_exists]

/-- Witness for C10 (amended): a failing check followed by a failing
upload: the upload error is printed, nothing propagates. -/
theorem C10_swallows_errors_witness :
    UploadEvent.printed "Timeout" ∈
      (upload_file_to_s3_if_not_exists (.exc "NoSuchKey") (.exc "Timeout")
        "/tmp/g" "bkt" "p/g").1 :=
  (C10_swallows_errors (.exc "NoSuchKey") (.exc "Timeout") "/tmp/g" "bkt" "p/g").2.2
    "NoSuchKey" "Timeout" rfl rfl

/-! ### A POSIX-resolution filesystem model

The string-keyed `FileSystem` above identifies files with raw path
strings.  Real POSIX path resolution collapses empty and `.` components
and resolves `..` through existing directories, so the paths the code
builds for two different keys can denote the same physical file
(`cache/a//b` and `cache/a/b`; `cache/a/../b` and `cache/b`).  The model
below makes that explicit: a physical file is identified by its resolved
component list, directories are tracked, and resolving a path fails when
an intermediate directory is missing, exactly as `os.path.exists` does.
Symlinks and paths that are simultaneously a file and a directory are
not modelled; the current working directory and `/` always exist as
directories. -/

/-- Split the characters of a path at `/`, like Python's
`p.split('/')`: `"a//b"` gives `["a", "", "b"]`, a leading `/` gives a
leading `""`. -/
def splitSlash : List Char → List (List Char)
  | [] => [[]]
  | c :: rest =>
      let r := splitSlash rest
      if c = '/' then [] :: r
      else
        match r with
        | [] => [[c]]
        | h :: t => (c :: h) :: t

/-- The `/`-separated components of a path string. -/
def pathComponents (p : String) : List String :=
  (splitSlash p.data).map fun l => String.mk l

/-- The physical filesystem: the set of existing directories and the
files, both keyed by resolved component lists.  File lookup takes the
first binding, so consing shadows (truncate-and-rewrite). -/
structure PosixFs where
  dirs : List (List String)
  files : List (List String × Bytes)
  deriving Repr

/-- Whether the resolved component list names an existing directory; the
working directory `[]` (root of relative paths) and `["/"]` (root of
absolute paths) always exist. -/
def isDir (fs : PosixFs) (d : List String) : Bool :=
  d == [] || d == ["/"] || fs.dirs.contains d

/-- The directory a path's resolution starts from: `["/"]` for an
absolute path, the working directory `[]` otherwise. -/
def startFor (p : String) : List String :=
  if isAbsPath p then ["/"] else []

/-- Walk a path's components from `cur`: empty and `.` components are
skipped, `..` and ordinary components require `cur` to be an existing
directory (resolution fails with `none` otherwise, as the kernel's path
walk does), `..` moves to the parent, and an ordinary component descends.
The final location needs not exist — it is where the path's target would
live. -/
def resolveComps (fs : PosixFs) : List String → List String → Option (List String)
  | cur, [] => some cur
  | cur, c :: rest =>
      if c == "" || c == "." then resolveComps fs cur rest
      else if isDir fs cur then
        if c == ".." then resolveComps fs cur.dropLast rest
        else resolveComps fs (cur ++ [c]) rest
      else none

/-- Resolve a path string against the filesystem. -/
def resolveFilePath (fs : PosixFs) (p : String) : Option (List String) :=
  resolveComps fs (startFor p) (pathComponents p)

/-- The file contents at a resolved location. -/
def lookupFile (fs : PosixFs) (t : List String) : Option Bytes :=
  fs.files.lookup t

/-- `os.path.exists(p)` with POSIX resolution: false when the path does
not resolve (a missing intermediate directory), else true when the
target is an existing directory or file. -/
def posixExists (fs : PosixFs) (p : String) : Bool :=
  match resolveFilePath fs p with
  | none => false
  | some t => isDir fs t || (lookupFile fs t).isSome

/-- The directory-creating walk of `os.makedirs(..., exist_ok=True)`:
each ordinary component descends and records the directory as existing,
`..` moves to the parent (the recursive mkdir of an existing prefix is
suppressed by `exist_ok`), empty and `.` components are skipped. -/
def makedirsGo (dirs : List (List String)) (cur : List String) :
    List String → List (List String)
  | [] => dirs
  | c :: rest =>
      if c == "" || c == "." then makedirsGo dirs cur rest
      else if c == ".." then makedirsGo dirs cur.dropLast rest
      else makedirsGo ((cur ++ [c]) :: dirs) (cur ++ [c]) rest

/-- `os.makedirs(os.path.dirname(p), exist_ok=True)`: create every
directory along the dirname of `p` (its components with the last
dropped, which matches `posixpath.dirname` because trailing empty
components are skipped by the walk). -/
def osMakedirsDirname (fs : PosixFs) (p : String) : PosixFs :=
  { fs with dirs :=
      makedirsGo fs.dirs (startFor p) (pathComponents p).dropLast }

/-- Create or truncate-and-overwrite the file at the resolved location
`t` (`open(p, 'wb')` followed by writing `c`). -/
def writeFileAt (fs : PosixFs) (t : List String) (c : Bytes) : PosixFs :=
  { fs with files := (t, c) :: fs.files }

/-- Result of one `fetch_s3_file` call under the POSIX model; `written`
instruments which resolved location, if any, the call wrote. -/
structure PosixFetchOutcome where
  fs : PosixFs
  result : FetchResult
  fetchCount : Nat
  written : Option (List String)
  deriving Repr

/-- `fetch_s3_file` re-embedded over the POSIX filesystem model: the
same existence check, GET, `raise_for_status`, `makedirs` along the
dirname, and a write that lands at the POSIX resolution of
`local_path` — which may be another key's existing file, then truncated
and overwritten.  Should the path still fail to resolve after
`makedirs` (unreachable for the keys exercised here), `open()` raises
an `OSError` and nothing is written. -/
def fetch_s3_file_posix (remote : RemoteStore) (fs : PosixFs)
    (bucket_name file_key : String) : PosixFetchOutcome :=
  let local_path := localPathFor file_key
  if posixExists fs local_path then
    { fs := fs, result := .ok local_path, fetchCount := 0, written := none }
  else
    match remote (s3UrlFor bucket_name file_key) with
    | .httpError s =>
        { fs := fs, result := .error (.httpStatus s), fetchCount := 1,
          written := none }
    | .ok content =>
        let fs2 := osMakedirsDirname fs local_path
        match resolveFilePath fs2 local_path with
        | some t =>
            { fs := writeFileAt fs2 t content, result := .ok local_path,
              fetchCount := 1, written := some t }
        | none =>
            { fs := fs2, result := .error .osError, fetchCount := 1,
              written := none }
    | .streamFail delivered =>
        let fs2 := osMakedirsDirname fs local_path
        match resolveFilePath fs2 local_path with
        | some t =>
            { fs := writeFileAt fs2 t delivered,
              result := .error .streamError, fetchCount := 1,
              written := some t }
        | none =>
            { fs := fs2, result := .error .osError, fetchCount := 1,
              written := none }

theorem lookupFile_makedirs (fs : PosixFs) (p : String) (q : List String) :
    lookupFile (osMakedirsDirname fs p) q = lookupFile fs q := rfl

theorem lookupFile_writeFileAt_self (fs : PosixFs) (t : List String)
    (c : Bytes) : lookupFile (writeFileAt fs t c) t = some c := by
  simp [lookupFile, writeFileAt, List.lookup]

theorem lookupFile_writeFileAt_other (fs : PosixFs) (t q : List String)
    (c : Bytes) (h : q ≠ t) :
    lookupFile (writeFileAt fs t c) q = lookupFile fs q := by
  have hb : (q == t) = false := by simp [h]
  simp [lookupFile, writeFileAt, List.lookup, hb]

theorem posixExists_of_file (fs : PosixFs) (p : String) (t : List String)
    (c : Bytes) (hres : resolveFilePath fs p = some t)
    (hf : lookupFile fs t = some c) : posixExists fs p = true := by
  simp [posixExists, hres, hf]

theorem fetch_posix_hit (remote : RemoteStore) (fs : PosixFs)
    (b k : String) (h : posixExists fs (localPathFor k) = true) :
    fetch_s3_file_posix remote fs b k =
      { fs := fs, result := .ok (localPathFor k), fetchCount := 0,
        written := none } := by
  simp [fetch_s3_file_posix, h]

theorem fetch_posix_miss_ok (remote : RemoteStore) (fs : PosixFs)
    (b k : String) (c : Bytes) (t : List String)
    (h0 : posixExists fs (localPathFor k) = false)
    (hr : remote (s3UrlFor b k) = .ok c)
    (ht : resolveFilePath (osMakedirsDirname fs (localPathFor k))
      (localPathFor k) = some t) :
    fetch_s3_file_posix remote fs b k =
      { fs := writeFileAt (osMakedirsDirname fs (localPathFor k)) t c,
        result := .ok (localPathFor k), fetchCount := 1,
        written := some t } := by
  simp [fetch_s3_file_posix, h0, hr, ht]

theorem fetch_posix_miss_stream (remote : RemoteStore) (fs : PosixFs)
    (b k : String) (d : Bytes) (t : List String)
    (h0 : posixExists fs (localPathFor k) = false)
    (hr : remote (s3UrlFor b k) = .streamFail d)
    (ht : resolveFilePath (osMakedirsDirname fs (localPathFor k))
      (localPathFor k) = some t) :
    fetch_s3_file_posix remote fs b k =
      { fs := writeFileAt (osMakedirsDirname fs (localPathFor k)) t d,
        result := .error .streamError, fetchCount := 1,
        written := some t } := by
  simp [fetch_s3_file_posix, h0, hr, ht]

/-- C8 (counterexample): the distinct keys `"a//b"` and `"a/b"` have
distinct path strings and distinct remote URLs — with distinct remote
objects, `[1]` and `[2]` — yet both paths resolve to the physical file
`cache/a/b`: after resolving `"a//b"`, resolving `"a/b"` is served as a
cache hit, with no network request, from the file holding the other
key's bytes `[1]`, not its own object `[2]`.  Two different keys do
collide on the same local file. -/
theorem C8_counterexample :
    ("a//b" : String) ≠ "a/b" ∧
    s3UrlFor "bkt" "a//b" ≠ s3UrlFor "bkt" "a/b" ∧
    (fun u => if u = s3UrlFor "bkt" "a//b" then RemoteResult.ok [1]
      else RemoteResult.ok [2]) (s3UrlFor "bkt" "a/b") = .ok [2] ∧
    (fetch_s3_file_posix
      (fun u => if u = s3UrlFor "bkt" "a//b" then RemoteResult.ok [1]
        else RemoteResult.ok [2])
      (fetch_s3_file_posix
        (fun u => if u = s3UrlFor "bkt" "a//b" then RemoteResult.ok [1]
          else RemoteResult.ok [2])
        { dirs := [["cache"]], files := [] } "bkt" "a//b").fs
      "bkt" "a/b").result = .ok "cache/a/b" ∧
    (fetch_s3_file_posix
      (fun u => if u = s3UrlFor "bkt" "a//b" then RemoteResult.ok [1]
        else RemoteResult.ok [2])
      (fetch_s3_file_posix
        (fun u => if u = s3UrlFor "bkt" "a//b" then RemoteResult.ok [1]
          else RemoteResult.ok [2])
        { dirs := [["cache"]], files := [] } "bkt" "a//b").fs
      "bkt" "a/b").fetchCount = 0 ∧
    lookupFile (fetch_s3_file_posix
      (fun u => if u = s3UrlFor "bkt" "a//b" then RemoteResult.ok [1]
        else RemoteResult.ok [2])
      (fetch_s3_file_posix
        (fun u => if u = s3UrlFor "bkt" "a//b" then RemoteResult.ok [1]
          else RemoteResult.ok [2])
        { dirs := [["cache"]], files := [] } "bkt" "a//b").fs
      "bkt" "a/b").fs ["cache", "a", "b"] = some [1] ∧
    ([1] : Bytes) ≠ [2] := by
  decide

/-- C8 (amended): distinct keys always map to distinct remote URLs
within a bucket and to distinct local path strings (the key is embedded
verbatim in both), but not to distinct local files: whenever the joined
path of a second key POSIX-resolves to the location a first key's fetch
wrote — as happens for aliases like `"a//b"` / `"a/b"` — resolving the
second key is served as a cache hit, with no network request, from the
file holding the first key's bytes. -/
theorem C8_corrected (b k1 k2 : String) (h : k1 ≠ k2) :
    s3UrlFor b k1 ≠ s3UrlFor b k2 ∧
    localPathFor k1 ≠ localPathFor k2 ∧
    ∀ (remote : RemoteStore) (fs : PosixFs) (c1 : Bytes) (t : List String),
      remote (s3UrlFor b k1) = .ok c1 →
      (fetch_s3_file_posix remote fs b k1).written = some t →
      resolveFilePath (fetch_s3_file_posix remote fs b k1).fs
        (localPathFor k2) = some t →
      (fetch_s3_file_posix remote
        (fetch_s3_file_posix remote fs b k1).fs b k2).result
        = .ok (localPathFor k2) ∧
      (fetch_s3_file_posix remote
        (fetch_s3_file_posix remote fs b k1).fs b k2).fetchCount = 0 ∧
      lookupFile (fetch_s3_file_posix remote
        (fetch_s3_file_posix remote fs b k1).fs b k2).fs t = some c1 := by
  refine ⟨fun hc => h (s3UrlFor_inj hc), fun hc => h (localPathFor_inj hc),
    fun remote fs c1 t hr hw hres2 => ?_⟩
  by_cases hp : posixExists fs (localPathFor k1) = true
  · rw [fetch_posix_hit remote fs b k1 hp] at hw
    cases hw
  · have hp0 : posixExists fs (localPathFor k1) = false := by
      revert hp
      cases posixExists fs (localPathFor k1) <;> simp
    rcases hres1 : resolveFilePath (osMakedirsDirname fs (localPathFor k1))
        (localPathFor k1) with _ | t1
    · have hwr : (fetch_s3_file_posix remote fs b k1).written = none := by
        simp [fetch_s3_file_posix, hp0, hr, hres1]
      rw [hwr] at hw
      cases hw
    · have hfs : (fetch_s3_file_posix remote fs b k1).fs
          = writeFileAt (osMakedirsDirname fs (localPathFor k1)) t1 c1 := by
        rw [fetch_posix_miss_ok remote fs b k1 c1 t1 hp0 hr hres1]
      have hwr : (fetch_s3_file_posix remote fs b k1).written = some t1 := by
        rw [fetch_posix_miss_ok remote fs b k1 c1 t1 hp0 hr hres1]
      rw [hwr] at hw
      injection hw with hw2
      subst hw2
      rw [hfs] at hres2 ⊢
      have hf := lookupFile_writeFileAt_self
        (osMakedirsDirname fs (localPathFor k1)) t1 c1
      have hex := posixExists_of_file _ (localPathFor k2) t1 c1 hres2 hf
      rw [fetch_posix_hit remote _ b k2 hex]
      exact ⟨rfl, rfl, hf⟩

/-- Witness for C8 (amended): the aliasing pair of keys from the
counterexample scenario, with every hypothesis discharged concretely. -/
theorem C8_corrected_witness :
    lookupFile (fetch_s3_file_posix
      (fun u => if u = s3UrlFor "bkt" "a//b" then RemoteResult.ok [1]
        else RemoteResult.ok [2])
      (fetch_s3_file_posix
        (fun u => if u = s3UrlFor "bkt" "a//b" then RemoteResult.ok [1]
          else RemoteResult.ok [2])
        { dirs := [["cache"]], files := [] } "bkt" "a//b").fs
      "bkt" "a/b").fs ["cache", "a", "b"] = some [1] :=
  ((C8_corrected "bkt" "a//b" "a/b" (by decide)).2.2
    (fun u => if u = s3UrlFor "bkt" "a//b" then RemoteResult.ok [1]
      else RemoteResult.ok [2])
    { dirs := [["cache"]], files := [] } [1] ["cache", "a", "b"]
    (by decide) (by decide) (by decide)).2.2

/-- C9 (counterexample): with the entry of key `"b"` present at its
resolved location `cache/b` and the directory `cache/a` absent, a call
for the distinct key `"a/../b"` passes the existence check as a miss
(the intermediate `cache/a` does not resolve), `makedirs` then creates
`cache/a`, and the write resolves to `cache/b` — truncating and
overwriting key `"b"`'s existing valid entry.  A second scenario: the
absolute key `"/evil"` writes at `/evil`, outside the cache root. -/
theorem C9_counterexample :
    ("a/../b" : String) ≠ "b" ∧
    resolveFilePath { dirs := [["cache"]], files := [(["cache", "b"], [1])] }
      (localPathFor "b") = some ["cache", "b"] ∧
    lookupFile { dirs := [["cache"]], files := [(["cache", "b"], [1])] }
      ["cache", "b"] = some [1] ∧
    (fetch_s3_file_posix (fun _ => .ok [9])
      { dirs := [["cache"]], files := [(["cache", "b"], [1])] }
      "bkt" "a/../b").result = .ok "cache/a/../b" ∧
    (fetch_s3_file_posix (fun _ => .ok [9])
      { dirs := [["cache"]], files := [(["cache", "b"], [1])] }
      "bkt" "a/../b").written = some ["cache", "b"] ∧
    lookupFile (fetch_s3_file_posix (fun _ => .ok [9])
      { dirs := [["cache"]], files := [(["cache", "b"], [1])] }
      "bkt" "a/../b").fs ["cache", "b"] = some [9] ∧
    ([9] : Bytes) ≠ [1] ∧
    (fetch_s3_file_posix (fun _ => .ok [9])
      { dirs := [["cache"]], files := [] } "bkt" "/evil").written
      = some ["/", "evil"] ∧
    (["/", "evil"] : List String).head? ≠ some "cache" := by
  decide

/-- C9 (amended): under POSIX resolution, a cache hit changes nothing on
disk; every call writes at most one file, and only at the POSIX
resolution of `os.path.join("cache", key)` — every other location's file
is untouched — and no file is ever deleted (at worst overwritten).  But
that single written location is not in general a new file under the
cache root: it may be another key's existing entry (via `..` or `//`
aliasing), which is then truncated and overwritten, and for an absolute
key it lies outside the cache root altogether. -/
theorem C9_corrected (remote : RemoteStore) (fs : PosixFs) (b k : String) :
    (posixExists fs (localPathFor k) = true →
      (fetch_s3_file_posix remote fs b k).fs = fs ∧
      (fetch_s3_file_posix remote fs b k).written = none) ∧
    (∀ q, (fetch_s3_file_posix remote fs b k).written ≠ some q →
      lookupFile (fetch_s3_file_posix remote fs b k).fs q
        = lookupFile fs q) ∧
    (∀ q c, lookupFile fs q = some c →
      ∃ c2, lookupFile (fetch_s3_file_posix remote fs b k).fs q = some c2) ∧
    (∀ t, (fetch_s3_file_posix remote fs b k).written = some t →
      resolveFilePath (osMakedirsDirname fs (localPathFor k))
        (localPathFor k) = some t) := by
  by_cases hp : posixExists fs (localPathFor k) = true
  · have hfs : (fetch_s3_file_posix remote fs b k).fs = fs := by
      rw [fetch_posix_hit remote fs b k hp]
    have hwr : (fetch_s3_file_posix remote fs b k).written = none := by
      rw [fetch_posix_hit remote fs b k hp]
    refine ⟨fun _ => ⟨hfs, hwr⟩, fun q _ => ?_, fun q c hq => ?_,
      fun t ht => ?_⟩
    · rw [hfs]
    · exact ⟨c, by rw [hfs]; exact hq⟩
    · rw [hwr] at ht
      cases ht
  · have hp0 : posixExists fs (localPathFor k) = false := by
      revert hp
      cases posixExists fs (localPathFor k) <;> simp
    rcases hr : remote (s3UrlFor b k) with c | s | d
    · rcases hres : resolveFilePath (osMakedirsDirname fs (localPathFor k))
          (localPathFor k) with _ | t1
      · have hfs : (fetch_s3_file_posix remote fs b k).fs
            = osMakedirsDirname fs (localPathFor k) := by
          simp [fetch_s3_file_posix, hp0, hr, hres]
        have hwr : (fetch_s3_file_posix remote fs b k).written = none := by
          simp [fetch_s3_file_posix, hp0, hr, hres]
        refine ⟨fun hph => ?_, fun q _ => ?_, fun q c2 hq => ?_,
          fun t ht => ?_⟩
        · rw [hp0] at hph
          cases hph
        · rw [hfs]
          rfl
        · exact ⟨c2, by rw [hfs]; exact hq⟩
        · rw [hwr] at ht
          cases ht
      · have hfs : (fetch_s3_file_posix remote fs b k).fs
            = writeFileAt (osMakedirsDirname fs (localPathFor k)) t1 c := by
          rw [fetch_posix_miss_ok remote fs b k c t1 hp0 hr hres]
        have hwr : (fetch_s3_file_posix remote fs b k).written
            = some t1 := by
          rw [fetch_posix_miss_ok remote fs b k c t1 hp0 hr hres]
        refine ⟨fun hph => ?_, fun q hq => ?_, fun q c2 hq => ?_,
          fun t ht => ?_⟩
        · rw [hp0] at hph
          cases hph
        · rw [hwr] at hq
          have hqt : q ≠ t1 := fun he => hq (by rw [he])
          rw [hfs, lookupFile_writeFileAt_other
            (osMakedirsDirname fs (localPathFor k)) t1 q c hqt]
          rfl
        · by_cases hqe : q = t1
          · refine ⟨c, ?_⟩
            rw [hfs, hqe]
            exact lookupFile_writeFileAt_self _ _ _
          · refine ⟨c2, ?_⟩
            rw [hfs, lookupFile_writeFileAt_other
              (osMakedirsDirname fs (localPathFor k)) t1 q c hqe]
            exact hq
        · rw [hwr] at ht
          injection ht with ht2
          rw [← ht2]
    · have hfs : (fetch_s3_file_posix remote fs b k).fs = fs := by
        simp [fetch_s3_file_posix, hp0, hr]
      have hwr : (fetch_s3_file_posix remote fs b k).written = none := by
        simp [fetch_s3_file_posix, hp0, hr]
      refine ⟨fun hph => ?_, fun q _ => ?_, fun q c2 hq => ?_,
        fun t ht => ?_⟩
      · rw [hp0] at hph
        cases hph
      · rw [hfs]
      · exact ⟨c2, by rw [hfs]; exact hq⟩
      · rw [hwr] at ht
        cases ht
    · rcases hres : resolveFilePath (osMakedirsDirname fs (localPathFor k))
          (localPathFor k) with _ | t1
      · have hfs : (fetch_s3_file_posix remote fs b k).fs
            = osMakedirsDirname fs (localPathFor k) := by
          simp [fetch_s3_file_posix, hp0, hr, hres]
        have hwr : (fetch_s3_file_posix remote fs b k).written = none := by
          simp [fetch_s3_file_posix, hp0, hr, hres]
        refine ⟨fun hph => ?_, fun q _ => ?_, fun q c2 hq => ?_,
          fun t ht => ?_⟩
        · rw [hp0] at hph
          cases hph
        · rw [hfs]
          rfl
        · exact ⟨c2, by rw [hfs]; exact hq⟩
        · rw [hwr] at ht
          cases ht
      · have hfs : (fetch_s3_file_posix remote fs b k).fs
            = writeFileAt (osMakedirsDirname fs (localPathFor k)) t1 d := by
          rw [fetch_posix_miss_stream remote fs b k d t1 hp0 hr hres]
        have hwr : (fetch_s3_file_posix remote fs b k).written
            = some t1 := by
          rw [fetch_posix_miss_stream remote fs b k d t1 hp0 hr hres]
        refine ⟨fun hph => ?_, fun q hq => ?_, fun q c2 hq => ?_,
          fun t ht => ?_⟩
        · rw [hp0] at hph
          cases hph
        · rw [hwr] at hq
          have hqt : q ≠ t1 := fun he => hq (by rw [he])
          rw [hfs, lookupFile_writeFileAt_other
            (osMakedirsDirname fs (localPathFor k)) t1 q d hqt]
          rfl
        · by_cases hqe : q = t1
          · refine ⟨d, ?_⟩
            rw [hfs, hqe]
            exact lookupFile_writeFileAt_self _ _ _
          · refine ⟨c2, ?_⟩
            rw [hfs, lookupFile_writeFileAt_other
              (osMakedirsDirname fs (localPathFor k)) t1 q d hqe]
            exact hq
        · rw [hwr] at ht
          injection ht with ht2
          rw [← ht2]

/-- Witness for C9 (amended): a file at an unrelated resolved location
survives a miss fetch untouched. -/
theorem C9_corrected_witness :
    lookupFile (fetch_s3_file_posix (fun _ => RemoteResult.ok [3])
      { dirs := [["cache"]], files := [(["other"], [5])] } "bkt" "k9").fs
      ["other"] = some [5] :=
  (C9_corrected (fun _ => RemoteResult.ok [3])
    { dirs := [["cache"]], files := [(["other"], [5])] } "bkt" "k9").2.1
    ["other"] (by decide)

end DesiCache
